import Mathlib

/-!
Shallow embedding of the MCP weather servers (minimal_weather_server.py,
simple_weather_server.py, weather_server.py): JSON-like Python values,
the protocol engines, the transport loops, and the concrete weather
fetch collaborators, together with theorems settling the spec claims.
-/

namespace MCPWeather

/-- JSON-like Python values: the dynamic dict/list/str/int/bool/None data
that `json.loads` produces and the servers pass around. Objects keep their
key-value pairs in insertion order, as Python dicts do. -/
inductive JVal where
  | null
  | bool (b : Bool)
  | num (n : Int)
  | str (s : String)
  | arr (xs : List JVal)
  | obj (kvs : List (String × JVal))
  deriving Repr

mutual
/-- Python `==` on embedded values (structural; values of different shapes
compare unequal rather than raising, as in Python). -/
def JVal.beq : JVal → JVal → Bool
  | .null, .null => true
  | .bool a, .bool b => a == b
  | .num a, .num b => a == b
  | .str a, .str b => a == b
  | .arr xs, .arr ys => beqList xs ys
  | .obj xs, .obj ys => beqObj xs ys
  | _, _ => false

/-- Elementwise Python `==` on lists. -/
def beqList : List JVal → List JVal → Bool
  | [], [] => true
  | x :: xs, y :: ys => JVal.beq x y && beqList xs ys
  | _, _ => false

/-- Itemwise Python `==` on dict item lists. -/
def beqObj : List (String × JVal) → List (String × JVal) → Bool
  | [], [] => true
  | (k1, v1) :: xs, (k2, v2) :: ys => k1 == k2 && JVal.beq v1 v2 && beqObj xs ys
  | _, _ => false
end

/-- Python exceptions that the embedded code can raise. -/
inductive PyErr where
  | attributeError (tyName : String) (attrName : String)
  | keyError (k : String)
  | typeError (tyName : String)
  deriving Repr, DecidableEq

/-- Python type name of a value, as it appears in exception messages. -/
def JVal.pyType : JVal → String
  | .null => "NoneType"
  | .bool _ => "bool"
  | .num _ => "int"
  | .str _ => "str"
  | .arr _ => "list"
  | .obj _ => "dict"

/-- Rendering of `str(e)` for an exception, as interpolated into the
servers' error messages. -/
def pyErrStr : PyErr → String
  | .attributeError ty attr =>
      "\x27" ++ ty ++ "\x27 object has no attribute \x27" ++ attr ++ "\x27"
  | .keyError k => "\x27" ++ k ++ "\x27"
  | .typeError ty => "\x27" ++ ty ++ "\x27 object is not subscriptable"

/-- First binding of a key in an ordered association list (Python dict
lookup; servers never build duplicate keys). -/
def lookupKey (kvs : List (String × JVal)) (k : String) : Option JVal :=
  match kvs with
  | [] => none
  | (k1, v) :: rest => if k1 = k then some v else lookupKey rest k

/-- Python `d.get(k)`: `None` when the key is missing, and an
`AttributeError` when the receiver is not a dict. -/
def JVal.get (v : JVal) (k : String) : Except PyErr (Option JVal) :=
  match v with
  | .obj kvs => .ok (lookupKey kvs k)
  | w => .error (.attributeError w.pyType "get")

/-- Python `d.get(k, default)`: the default applies only when the key is
missing (a key bound to `None` yields `None`). -/
def JVal.getD (v : JVal) (k : String) (d : JVal) : Except PyErr JVal :=
  match v with
  | .obj kvs => .ok ((lookupKey kvs k).getD d)
  | w => .error (.attributeError w.pyType "get")

/-- Python `d[k]` subscription: `KeyError` when missing, `TypeError` when
the receiver is not a dict. -/
def JVal.getItem (v : JVal) (k : String) : Except PyErr JVal :=
  match v with
  | .obj kvs =>
      match lookupKey kvs k with
      | some w => .ok w
      | none => .error (.keyError k)
  | w => .error (.typeError w.pyType)

/-- Python `str.strip()` for the ASCII whitespace arising in line
transport (structural on the character list, so that concrete inputs
evaluate). -/
def pyStrip (s : String) : String :=
  ⟨((s.data.dropWhile Char.isWhitespace).reverse.dropWhile
      Char.isWhitespace).reverse⟩

/-- Python truthiness of a value, as used by `if response:`. -/
def truthy : JVal → Bool
  | .null => false
  | .bool b => b
  | .num n => n != 0
  | .str s => s != ""
  | .arr xs => !xs.isEmpty
  | .obj kvs => !kvs.isEmpty

mutual
/-- Python `repr` of a value (quotes written with escape codes). -/
def pyRepr : JVal → String
  | .null => "None"
  | .bool true => "True"
  | .bool false => "False"
  | .num n => toString n
  | .str s => "\x27" ++ s ++ "\x27"
  | .arr xs => "[" ++ pyReprList xs ++ "]"
  | .obj kvs => "\x7b" ++ pyReprObj kvs ++ "\x7d"

/-- Comma-separated reprs of the elements of a Python list. -/
def pyReprList : List JVal → String
  | [] => ""
  | [x] => pyRepr x
  | x :: y :: xs => pyRepr x ++ ", " ++ pyReprList (y :: xs)

/-- Comma-separated `key: value` reprs of the items of a Python dict. -/
def pyReprObj : List (String × JVal) → String
  | [] => ""
  | [(k, v)] => "\x27" ++ k ++ "\x27: " ++ pyRepr v
  | (k, v) :: y :: xs => "\x27" ++ k ++ "\x27: " ++ pyRepr v ++ ", " ++ pyReprObj (y :: xs)
end

/-- Python `str()` / f-string interpolation of a value. -/
def pyStr : JVal → String
  | .str s => s
  | v => pyRepr v

/-- Success response envelope as both servers build it:
keys `jsonrpc`, `id`, `result` in that order. -/
def okEnv (rid : JVal) (result : JVal) : JVal :=
  .obj [("jsonrpc", .str "2.0"), ("id", rid), ("result", result)]

/-- Error response envelope as both servers build it:
keys `jsonrpc`, `id`, `error` with `error =` an object of `code`, `message`. -/
def errEnv (rid : JVal) (code : Int) (message : String) : JVal :=
  .obj [("jsonrpc", .str "2.0"), ("id", rid),
        ("error", .obj [("code", .num code), ("message", .str message)])]

/-- Tool-call success payload `result.content = [ {type: "text", text} ]`. -/
def contentResult (text : String) : JVal :=
  .obj [("content", .arr [.obj [("type", .str "text"), ("text", .str text)]])]

/-- Field of an object value, when present (used to state properties of
envelopes: their `id`, `error`, `result`, tool `name`, ...). -/
def field (v : JVal) (k : String) : Option JVal :=
  match v with
  | .obj kvs => lookupKey kvs k
  | _ => none

section MinimalServer

/-- Static `self.server_info` of `MCPWeatherServer.__init__`. -/
def server_info : JVal :=
  .obj [("name", .str "weather-server"), ("version", .str "1.0.0")]

/-- Payload of the `initialize` result in `process_request`. -/
def minimalInitResult : JVal :=
  .obj [("protocolVersion", .str "2024-11-05"),
        ("capabilities", .obj [("tools", .obj [])]),
        ("serverInfo", server_info)]

/-- Hard-coded tool list of the minimal server's `tools/list` handler. -/
def minimalTools : List JVal :=
  [.obj [("name", .str "get_weather"),
         ("description", .str "Get current weather for a location"),
         ("inputSchema", .obj
           [("type", .str "object"),
            ("properties", .obj
              [("location", .obj
                 [("type", .str "string"),
                  ("description", .str "City name (e.g., \x27London\x27, \x27New York\x27)")])]),
            ("required", .arr [.str "location"])])],
   .obj [("name", .str "get_weather_forecast"),
         ("description", .str "Get 5-day weather forecast for a location"),
         ("inputSchema", .obj
           [("type", .str "object"),
            ("properties", .obj
              [("location", .obj
                 [("type", .str "string"),
                  ("description", .str "City name (e.g., \x27London\x27, \x27New York\x27)")]),
               ("days", .obj
                 [("type", .str "number"),
                  ("description", .str "Number of days to forecast (1-5)"),
                  ("minimum", .num 1),
                  ("maximum", .num 5),
                  ("default", .num 5)])]),
            ("required", .arr [.str "location"])])]]

/-- Dispatch core of `MCPWeatherServer.process_request` after the three
field extractions. The collaborators `gw`/`gwf` model the awaited
`self.get_weather` / `self.get_weather_forecast` calls; `Except.error`
is a raised fault, caught by the surrounding `try`. -/
def minimal_dispatch (gw : JVal → Except String String)
    (gwf : JVal → JVal → Except String String)
    (method params request_id : JVal) : Except PyErr (Option JVal) :=
  if JVal.beq method (.str "initialize") then
    .ok (some (okEnv request_id minimalInitResult))
  else if JVal.beq method (.str "notifications/initialized") then
    .ok none
  else if JVal.beq method (.str "tools/list") then
    .ok (some (okEnv request_id (.obj [("tools", .arr minimalTools)])))
  else if JVal.beq method (.str "tools/call") then
    match params.get "name", params.getD "arguments" (.obj []) with
    | .error e, _ => .error e
    | .ok _, .error e => .error e
    | .ok nameOpt, .ok arguments =>
      if JVal.beq (nameOpt.getD .null) (.str "get_weather") then
        match (match arguments.getD "location" (.str "") with
               | .error e => Except.error (pyErrStr e)
               | .ok loc => gw loc) with
        | .ok w => .ok (some (okEnv request_id (contentResult w)))
        | .error e =>
            .ok (some (errEnv request_id (-32603) ("Weather API error: " ++ e)))
      else if JVal.beq (nameOpt.getD .null) (.str "get_weather_forecast") then
        match (match arguments.getD "location" (.str ""),
                     arguments.getD "days" (.num 5) with
               | .error e, _ => Except.error (pyErrStr e)
               | .ok _, .error e => Except.error (pyErrStr e)
               | .ok loc, .ok days => gwf loc days) with
        | .ok w => .ok (some (okEnv request_id (contentResult w)))
        | .error e =>
            .ok (some (errEnv request_id (-32603) ("Forecast API error: " ++ e)))
      else
        .ok (some (errEnv request_id (-32601)
          ("Unknown tool: " ++ pyStr (nameOpt.getD .null))))
  else
    .ok (some (errEnv request_id (-32601) ("Unknown method: " ++ pyStr method)))

/-- `MCPWeatherServer.process_request`: extracts `method`, `params`
(default empty dict), `id` (default `None`), then dispatches. A non-dict
`data` makes the first `data.get` raise `AttributeError`. -/
def process_request (gw : JVal → Except String String)
    (gwf : JVal → JVal → Except String String)
    (data : JVal) : Except PyErr (Option JVal) :=
  match data with
  | .obj kvs =>
      minimal_dispatch gw gwf ((lookupKey kvs "method").getD .null)
        ((lookupKey kvs "params").getD (.obj []))
        ((lookupKey kvs "id").getD .null)
  | v => .error (.attributeError v.pyType "get")

/-- Truthiness filter of `return json.dumps(response) if response else None`. -/
def truthyFilter : Option JVal → Option JVal
  | none => none
  | some v => if truthy v then some v else none

/-- `MCPWeatherServer.handle_message` applied to the outcome of
`json.loads(message.strip())`: a decode failure becomes the fixed
`Parse error` envelope; any other exception from `process_request` is
turned into an `Internal error` envelope carrying `data.get("id")` —
which itself raises if `data` is not a dict, in which case the whole
call raises. Serialization (`json.dumps`) is abstracted as the identity
on envelope values. -/
def handle_message (gw : JVal → Except String String)
    (gwf : JVal → JVal → Except String String)
    (parsed : Except String JVal) : Except PyErr (Option JVal) :=
  match parsed with
  | .error _ => .ok (some (errEnv .null (-32700) "Parse error"))
  | .ok data =>
    match process_request gw gwf data with
    | .ok resp => .ok (truthyFilter resp)
    | .error e =>
      match data.get "id" with
      | .error e2 => .error e2
      | .ok idOpt =>
          .ok (some (errEnv (idOpt.getD .null) (-32603)
            ("Internal error: " ++ pyErrStr e)))

/-- Main loop of `minimal_weather_server.py` over a list of raw input
lines (`""` models `readline` returning nothing at end of stream;
`parse` models `json.loads` with the decode-error detail in `error`).
The `try` wraps the whole loop, so an exception escaping
`handle_message` prints one `Server error` envelope and terminates. -/
def minimal_loop (gw : JVal → Except String String)
    (gwf : JVal → JVal → Except String String)
    (parse : String → Except String JVal) : List String → List JVal
  | [] => []
  | line :: rest =>
    if line = "" then []
    else
      match handle_message gw gwf (parse (pyStrip line)) with
      | .error e => [errEnv .null (-32603) ("Server error: " ++ pyErrStr e)]
      | .ok none => minimal_loop gw gwf parse rest
      | .ok (some r) => r :: minimal_loop gw gwf parse rest

/-- Outcome of the network-and-format section of the minimal server's
`get_weather` body (everything inside its `try`): a formatted report, a
non-200 status, an `HTTPError` with code 404, another `HTTPError`, or
any other exception. -/
inductive FetchOutcome where
  | report (s : String)
  | badStatus (status : Int)
  | notFound
  | httpError (code : Int) (reason : String)
  | exc (msg : String)
  deriving Repr, DecidableEq

/-- `MCPWeatherServer.get_weather`: checks the API key and the location,
then maps the network outcome to a report or an error-sentinel string.
Every failure is returned as a string — this function never raises. -/
def get_weather (apiKey : Option String) (net : JVal → FetchOutcome)
    (location : JVal) : String :=
  if apiKey = none ∨ apiKey = some "" then
    "❌ Error: OPENWEATHER_API_KEY environment variable not set"
  else if truthy location = false then
    "❌ Error: No location provided"
  else
    match net location with
    | .report s => s
    | .badStatus st => "❌ Error: Weather API returned status " ++ toString st
    | .notFound => "❌ Error: Location \x27" ++ pyStr location ++ "\x27 not found"
    | .httpError c r => "❌ Error: HTTP " ++ toString c ++ " - " ++ r
    | .exc m => "❌ Error: " ++ m

end MinimalServer

section SimpleServer

/-- State of a `SimpleMCPServer` instance: its name and its ordered tool
registry. -/
structure SimpleServer where
  name : String
  tools : List JVal
  deriving Repr

/-- `SimpleMCPServer.add_tool`: appends a descriptor built from name,
description and schema to the registry. -/
def add_tool (srv : SimpleServer) (name description : String)
    (schema : JVal) : SimpleServer :=
  { srv with tools := srv.tools ++
      [.obj [("name", .str name), ("description", .str description),
             ("inputSchema", schema)]] }

/-- Payload of the `initialize` result in `SimpleMCPServer.handle_request`. -/
def simpleInitResult (name : String) : JVal :=
  .obj [("protocolVersion", .str "2024-11-05"),
        ("capabilities", .obj [("tools", .obj [])]),
        ("serverInfo", .obj [("name", .str name), ("version", .str "1.0.0")])]

/-- Dispatch core of `SimpleMCPServer.handle_request` after field
extraction. The inner `try` wraps the `get_weather` call (including
`arguments.get`), converting a raised fault into a
`Tool execution error` envelope. -/
def simple_dispatch (srv : SimpleServer) (gw : JVal → Except String String)
    (method params request_id : JVal) : Except PyErr (Option JVal) :=
  if JVal.beq method (.str "initialize") then
    .ok (some (okEnv request_id (simpleInitResult srv.name)))
  else if JVal.beq method (.str "notifications/initialized") then
    .ok none
  else if JVal.beq method (.str "tools/list") then
    .ok (some (okEnv request_id (.obj [("tools", .arr srv.tools)])))
  else if JVal.beq method (.str "tools/call") then
    match params.get "name", params.getD "arguments" (.obj []) with
    | .error e, _ => .error e
    | .ok _, .error e => .error e
    | .ok nameOpt, .ok arguments =>
      match (if JVal.beq (nameOpt.getD .null) (.str "get_weather") then
               match arguments.getD "location" (.str "") with
               | .error e => Except.error (pyErrStr e)
               | .ok loc =>
                 match gw loc with
                 | .ok w =>
                     Except.ok (some (okEnv request_id (contentResult w)))
                 | .error e => Except.error e
             else
               Except.ok (some (errEnv request_id (-32601)
                 ("Unknown tool: " ++ pyStr (nameOpt.getD .null))))) with
      | .ok resp => .ok resp
      | .error e =>
          .ok (some (errEnv request_id (-32603)
            ("Tool execution error: " ++ e)))
  else
    .ok (some (errEnv request_id (-32601) ("Unknown method: " ++ pyStr method)))

/-- Request id of the simple server: `request.get("id", 1)` with a `None`
value also replaced by `1`. -/
def simpleRid (kvs : List (String × JVal)) : JVal :=
  if JVal.beq ((lookupKey kvs "id").getD (.num 1)) .null then .num 1
  else (lookupKey kvs "id").getD (.num 1)

/-- `SimpleMCPServer.handle_request`: extracts `method`, `params`
(default empty dict) and the defaulted request id, then dispatches. A
non-dict request makes the first `request.get` raise `AttributeError`. -/
def handle_request (srv : SimpleServer) (gw : JVal → Except String String)
    (request : JVal) : Except PyErr (Option JVal) :=
  match request with
  | .obj kvs =>
      simple_dispatch srv gw ((lookupKey kvs "method").getD .null)
        ((lookupKey kvs "params").getD (.obj [])) (simpleRid kvs)
  | v => .error (.attributeError v.pyType "get")

/-- Main loop of `simple_weather_server.py` over raw input lines: stops
at end of stream, skips lines that strip to empty, then parses and
dispatches with a per-line `try`, so a decode failure yields a
`Parse error: <detail>` envelope and any other exception an
`Internal error: <detail>` envelope, and the loop continues. -/
def simple_loop (srv : SimpleServer) (gw : JVal → Except String String)
    (parse : String → Except String JVal) : List String → List JVal
  | [] => []
  | line :: rest =>
    if line = "" then []
    else if pyStrip line = "" then simple_loop srv gw parse rest
    else
      match parse (pyStrip line) with
      | .error d =>
          errEnv .null (-32700) ("Parse error: " ++ d) ::
            simple_loop srv gw parse rest
      | .ok req =>
        match handle_request srv gw req with
        | .error e =>
            errEnv .null (-32603) ("Internal error: " ++ pyErrStr e) ::
              simple_loop srv gw parse rest
        | .ok none => simple_loop srv gw parse rest
        | .ok (some r) => r :: simple_loop srv gw parse rest

/-- The server instance that `simple_weather_server.main` builds: name
`simple-weather-server` and the single registered `get_weather` tool. -/
def simpleServer0 : SimpleServer :=
  add_tool { name := "simple-weather-server", tools := [] }
    "get_weather" "Get current weather for a location"
    (.obj [("type", .str "object"),
           ("properties", .obj
             [("location", .obj
                [("type", .str "string"),
                 ("description", .str "City name")])]),
           ("required", .arr [.str "location"])])

end SimpleServer

section WeatherServer

/-- TextContent item of `weather_server.py`, as a value. -/
def textContent (text : String) : JVal :=
  .obj [("type", .str "text"), ("text", .str text)]

/-- `weather_server.call_tool`: checks the module-level API key, then
routes on the tool name; `arguments["location"]` raises `KeyError` when
missing; the fetch collaborators model `get_current_weather` /
`get_weather_forecast` with raised faults in `error`. Every failure is
returned as a text content item, never as a protocol error object. -/
def call_tool (apiKey : Option String)
    (fetchCur fetchFor : JVal → JVal → Except PyErr String)
    (name : String) (arguments : JVal) : List JVal :=
  if apiKey = none ∨ apiKey = some "" then
    [textContent ("Error: OpenWeatherMap API key not configured. " ++
      "Please set OPENWEATHER_API_KEY environment variable.")]
  else
    match (if name = "get_current_weather" then
             match arguments.getItem "location" with
             | .error e => Except.error e
             | .ok loc =>
               match arguments.getD "units" (.str "metric") with
               | .error e => Except.error e
               | .ok units => fetchCur loc units
           else if name = "get_weather_forecast" then
             match arguments.getItem "location" with
             | .error e => Except.error e
             | .ok loc =>
               match arguments.getD "units" (.str "metric") with
               | .error e => Except.error e
               | .ok units => fetchFor loc units
           else
             Except.ok ("Error: Unknown tool \x27" ++ name ++ "\x27")) with
    | .ok text => [textContent text]
    | .error e =>
        [textContent ("Error calling tool \x27" ++ name ++ "\x27: " ++
          pyErrStr e)]

end WeatherServer

/-! Helper lemmas shared by the claim theorems. -/

theorem field_okEnv (rid r : JVal) : field (okEnv rid r) "id" = some rid := rfl

theorem field_errEnv (rid : JVal) (c : Int) (m : String) :
    field (errEnv rid c m) "id" = some rid := rfl

theorem beq_null_iff (v : JVal) : (JVal.beq v .null = true) ↔ v = .null := by
  cases v <;> simp [JVal.beq]

theorem beq_str_iff (v : JVal) (s : String) :
    (JVal.beq v (.str s) = true) ↔ v = .str s := by
  cases v <;> simp [JVal.beq]

theorem beq_null_false (v : JVal) (hv : v ≠ .null) :
    JVal.beq v .null = false := by
  cases hbv : JVal.beq v .null
  · rfl
  · exact absurd ((beq_null_iff v).mp hbv) hv

theorem simpleRid_of_ne_null (kvs : List (String × JVal)) (v : JVal)
    (hid : lookupKey kvs "id" = some v) (hv : v ≠ .null) :
    simpleRid kvs = v := by
  simp [simpleRid, hid, beq_null_false v hv]

theorem minimal_dispatch_id (gw : JVal → Except String String)
    (gwf : JVal → JVal → Except String String) (method params rid resp : JVal)
    (h : minimal_dispatch gw gwf method params rid = .ok (some resp)) :
    field resp "id" = some rid := by
  unfold minimal_dispatch at h
  repeat' split at h
  all_goals
    first
      | exact Except.noConfusion h
      | (injection h with h1
         first
           | exact Option.noConfusion h1
           | (injection h1 with h2
              subst h2
              rfl))

theorem simple_dispatch_cases (srv : SimpleServer)
    (gw : JVal → Except String String) (method params rid : JVal) :
    (∃ e, simple_dispatch srv gw method params rid = .error e) ∨
    simple_dispatch srv gw method params rid = .ok none ∨
    (∃ resp, simple_dispatch srv gw method params rid = .ok (some resp) ∧
       field resp "id" = some rid) := by
  unfold simple_dispatch
  repeat' split
  all_goals
    first
      | exact .inl ⟨_, rfl⟩
      | exact .inr (.inl rfl)
      | exact .inr (.inr ⟨_, rfl, rfl⟩)
      | (rename_i respv heq
         repeat' split at heq
         all_goals
           first
             | exact Except.noConfusion heq
             | (injection heq with h1
                subst h1
                exact .inr (.inr ⟨_, rfl, rfl⟩)))

theorem simple_dispatch_id (srv : SimpleServer) (gw : JVal → Except String String)
    (method params rid resp : JVal)
    (h : simple_dispatch srv gw method params rid = .ok (some resp)) :
    field resp "id" = some rid := by
  rcases simple_dispatch_cases srv gw method params rid with ⟨e, he⟩ | hn | ⟨r, hr, hfield⟩
  · rw [he] at h
    exact Except.noConfusion h
  · rw [hn] at h
    injection h with h1
    exact Option.noConfusion h1
  · rw [hr] at h
    injection h with h1
    injection h1 with h2
    subst h2
    exact hfield

/-- C9: every well-formed `initialize` request (id present and not null)
is answered by both engines with a success envelope that echoes the
request id and whose result carries `protocolVersion` `"2024-11-05"`, a
`capabilities` object advertising `tools`, and the static `serverInfo`
name and version constants. -/
theorem C9_initialize_response (gw : JVal → Except String String)
    (gwf : JVal → JVal → Except String String) (srv : SimpleServer)
    (kvs : List (String × JVal)) (v : JVal)
    (hm : lookupKey kvs "method" = some (.str "initialize"))
    (hid : lookupKey kvs "id" = some v) (hv : v ≠ .null) :
    process_request gw gwf (.obj kvs) =
      .ok (some (okEnv v minimalInitResult)) ∧
    handle_request srv gw (.obj kvs) =
      .ok (some (okEnv v (simpleInitResult srv.name))) ∧
    field minimalInitResult "protocolVersion" = some (.str "2024-11-05") ∧
    field minimalInitResult "capabilities" = some (.obj [("tools", .obj [])]) ∧
    field minimalInitResult "serverInfo" = some server_info ∧
    field server_info "name" = some (.str "weather-server") ∧
    field server_info "version" = some (.str "1.0.0") ∧
    field (simpleInitResult srv.name) "protocolVersion" = some (.str "2024-11-05") ∧
    field (simpleInitResult srv.name) "serverInfo" =
      some (.obj [("name", .str srv.name), ("version", .str "1.0.0")]) := by
  refine ⟨?_, ?_, rfl, rfl, rfl, rfl, rfl, rfl, rfl⟩
  · simp only [process_request]
    rw [hm, hid]
    rfl
  · simp only [handle_request]
    rw [hm, simpleRid_of_ne_null kvs v hid hv]
    rfl

/-- C9 witness at a concrete request with id 7. -/
theorem C9_initialize_response_witness :
    process_request (fun _ => .ok "W") (fun _ _ => .ok "F")
      (.obj [("method", .str "initialize"), ("id", .num 7)]) =
      .ok (some (okEnv (.num 7) minimalInitResult)) ∧
    handle_request simpleServer0 (fun _ => .ok "W")
      (.obj [("method", .str "initialize"), ("id", .num 7)]) =
      .ok (some (okEnv (.num 7) (simpleInitResult "simple-weather-server"))) := by
  have h := C9_initialize_response (fun _ => .ok "W") (fun _ _ => .ok "F")
    simpleServer0 [("method", .str "initialize"), ("id", .num 7)] (.num 7)
    rfl rfl (fun hc => JVal.noConfusion hc)
  exact ⟨h.1, h.2.1⟩

/-- C7: a `tools/list` request is answered with the statically registered
tool set: the simple engine returns exactly its registry value (same
length, names and registration order, with `add_tool` appending
descriptors in order), the minimal engine returns its two fixed
descriptors named `get_weather` and `get_weather_forecast`, and both
engines are pure functions of registry and request, leaving the registry
unchanged, so repeated calls return identical results. -/
theorem C7_tools_list_registry (gw : JVal → Except String String)
    (gwf : JVal → JVal → Except String String) (srv : SimpleServer)
    (kvs : List (String × JVal)) (v : JVal)
    (hm : lookupKey kvs "method" = some (.str "tools/list"))
    (hid : lookupKey kvs "id" = some v) (hv : v ≠ .null) :
    handle_request srv gw (.obj kvs) =
      .ok (some (okEnv v (.obj [("tools", .arr srv.tools)]))) ∧
    process_request gw gwf (.obj kvs) =
      .ok (some (okEnv v (.obj [("tools", .arr minimalTools)]))) ∧
    minimalTools.map (fun t => field t "name") =
      [some (.str "get_weather"), some (.str "get_weather_forecast")] ∧
    (∀ n d s, (add_tool srv n d s).tools = srv.tools ++
      [.obj [("name", .str n), ("description", .str d),
             ("inputSchema", s)]]) := by
  refine ⟨?_, ?_, rfl, fun n d s => rfl⟩
  · simp only [handle_request]
    rw [hm, simpleRid_of_ne_null kvs v hid hv]
    rfl
  · simp only [process_request]
    rw [hm, hid]
    rfl

/-- C7 witness at a concrete request with id 2 against the registry that
`simple_weather_server.main` builds. -/
theorem C7_tools_list_registry_witness :
    handle_request simpleServer0 (fun _ => .ok "W")
      (.obj [("method", .str "tools/list"), ("id", .num 2)]) =
      .ok (some (okEnv (.num 2) (.obj [("tools", .arr simpleServer0.tools)]))) ∧
    process_request (fun _ => .ok "W") (fun _ _ => .ok "F")
      (.obj [("method", .str "tools/list"), ("id", .num 2)]) =
      .ok (some (okEnv (.num 2) (.obj [("tools", .arr minimalTools)]))) := by
  have h := C7_tools_list_registry (fun _ => .ok "W") (fun _ _ => .ok "F")
    simpleServer0 [("method", .str "tools/list"), ("id", .num 2)] (.num 2)
    rfl rfl (fun hc => JVal.noConfusion hc)
  exact ⟨h.1, h.2.1⟩

/-- C6: a request whose method is a string matching no handler is
answered by both engines with a `-32601` envelope whose message is
`Unknown method: <method>`, and a `tools/call` whose `params.name` is a
string matching no tool is answered with a `-32601` envelope whose
message is `Unknown tool: <name>` (the minimal engine knows
`get_weather` and `get_weather_forecast`; the simple engine dispatches
only `get_weather`). -/
theorem C6_unknown_method_tool (gw : JVal → Except String String)
    (gwf : JVal → JVal → Except String String) (srv : SimpleServer)
    (kvs : List (String × JVal)) :
    (∀ m, lookupKey kvs "method" = some (.str m) →
      m ≠ "initialize" → m ≠ "notifications/initialized" →
      m ≠ "tools/list" → m ≠ "tools/call" →
      process_request gw gwf (.obj kvs) =
        .ok (some (errEnv ((lookupKey kvs "id").getD .null) (-32601)
          ("Unknown method: " ++ m))) ∧
      handle_request srv gw (.obj kvs) =
        .ok (some (errEnv (simpleRid kvs) (-32601)
          ("Unknown method: " ++ m)))) ∧
    (∀ pkvs n, lookupKey kvs "method" = some (.str "tools/call") →
      lookupKey kvs "params" = some (.obj pkvs) →
      lookupKey pkvs "name" = some (.str n) →
      n ≠ "get_weather" → n ≠ "get_weather_forecast" →
      process_request gw gwf (.obj kvs) =
        .ok (some (errEnv ((lookupKey kvs "id").getD .null) (-32601)
          ("Unknown tool: " ++ n))) ∧
      handle_request srv gw (.obj kvs) =
        .ok (some (errEnv (simpleRid kvs) (-32601)
          ("Unknown tool: " ++ n)))) := by
  constructor
  · intro m hm h1 h2 h3 h4
    constructor
    · simp only [process_request]
      rw [hm]
      simp [minimal_dispatch, JVal.beq, h1, h2, h3, h4, pyStr]
    · simp only [handle_request]
      rw [hm]
      simp [simple_dispatch, JVal.beq, h1, h2, h3, h4, pyStr]
  · intro pkvs n hm hp hn h1 h2
    constructor
    · simp only [process_request]
      rw [hm, hp]
      simp [minimal_dispatch, JVal.beq, JVal.get, JVal.getD, hn, h1, h2, pyStr]
    · simp only [handle_request]
      rw [hm, hp]
      simp [simple_dispatch, JVal.beq, JVal.get, JVal.getD, hn, h1, h2, pyStr]

/-- C6 witness: concrete unknown method `frobnicate` and unknown tool
`__nonexistent__`, each with id 5. -/
theorem C6_unknown_method_tool_witness :
    process_request (fun _ => .ok "W") (fun _ _ => .ok "F")
      (.obj [("method", .str "frobnicate"), ("id", .num 5)]) =
      .ok (some (errEnv (.num 5) (-32601) "Unknown method: frobnicate")) ∧
    handle_request simpleServer0 (fun _ => .ok "W")
      (.obj [("method", .str "tools/call"), ("id", .num 5),
             ("params", .obj [("name", .str "__nonexistent__")])]) =
      .ok (some (errEnv (.num 5) (-32601) "Unknown tool: __nonexistent__")) := by
  constructor
  · have h := (C6_unknown_method_tool (fun _ => .ok "W") (fun _ _ => .ok "F")
      simpleServer0 [("method", .str "frobnicate"), ("id", .num 5)]).1
      "frobnicate" rfl (by decide) (by decide) (by decide) (by decide)
    exact h.1
  · have h := (C6_unknown_method_tool (fun _ => .ok "W") (fun _ _ => .ok "F")
      simpleServer0 [("method", .str "tools/call"), ("id", .num 5),
        ("params", .obj [("name", .str "__nonexistent__")])]).2
      [("name", .str "__nonexistent__")] "__nonexistent__" rfl rfl rfl
      (by decide) (by decide)
    exact h.2

/-- C10: a `tools/call` of the known tool `get_weather` whose `params`
has no `arguments` key, or whose `arguments` object has no `location`
key, still produces exactly the single well-formed response obtained by
calling the collaborator with the empty-string location: `arguments`
defaults to the empty mapping and `location` to `""`, and neither engine
emits a missing-argument protocol error even though the tool's
`inputSchema` lists `location` as required. -/
theorem C10_default_arguments (gw : JVal → Except String String)
    (gwf : JVal → JVal → Except String String) (srv : SimpleServer)
    (kvs pkvs : List (String × JVal)) (v : JVal)
    (hm : lookupKey kvs "method" = some (.str "tools/call"))
    (hp : lookupKey kvs "params" = some (.obj pkvs))
    (hn : lookupKey pkvs "name" = some (.str "get_weather"))
    (hid : lookupKey kvs "id" = some v) (hv : v ≠ .null) :
    (lookupKey pkvs "arguments" = none →
      process_request gw gwf (.obj kvs) =
        .ok (some (match gw (.str "") with
          | .ok w => okEnv v (contentResult w)
          | .error e => errEnv v (-32603) ("Weather API error: " ++ e))) ∧
      handle_request srv gw (.obj kvs) =
        .ok (some (match gw (.str "") with
          | .ok w => okEnv v (contentResult w)
          | .error e => errEnv v (-32603) ("Tool execution error: " ++ e)))) ∧
    (∀ akvs, lookupKey pkvs "arguments" = some (.obj akvs) →
      lookupKey akvs "location" = none →
      process_request gw gwf (.obj kvs) =
        .ok (some (match gw (.str "") with
          | .ok w => okEnv v (contentResult w)
          | .error e => errEnv v (-32603) ("Weather API error: " ++ e))) ∧
      handle_request srv gw (.obj kvs) =
        .ok (some (match gw (.str "") with
          | .ok w => okEnv v (contentResult w)
          | .error e => errEnv v (-32603) ("Tool execution error: " ++ e)))) := by
  constructor
  · intro ha
    constructor
    · simp only [process_request]
      rw [hm, hp, hid]
      cases hgw : gw (.str "") <;>
        simp [minimal_dispatch, JVal.beq, JVal.get, JVal.getD, hn, ha,
          lookupKey, hgw]
    · simp only [handle_request]
      rw [hm, hp, simpleRid_of_ne_null kvs v hid hv]
      cases hgw : gw (.str "") <;>
        simp [simple_dispatch, JVal.beq, JVal.get, JVal.getD, hn, ha,
          lookupKey, hgw]
  · intro akvs ha hl
    constructor
    · simp only [process_request]
      rw [hm, hp, hid]
      cases hgw : gw (.str "") <;>
        simp [minimal_dispatch, JVal.beq, JVal.get, JVal.getD, hn, ha, hl,
          lookupKey, hgw]
    · simp only [handle_request]
      rw [hm, hp, simpleRid_of_ne_null kvs v hid hv]
      cases hgw : gw (.str "") <;>
        simp [simple_dispatch, JVal.beq, JVal.get, JVal.getD, hn, ha, hl,
          lookupKey, hgw]

/-- C10 witness: a `tools/call` of `get_weather` with no `arguments` at
all, and one with `arguments` lacking `location`, against a collaborator
that reports the location it was handed. -/
theorem C10_default_arguments_witness :
    process_request (fun loc => .ok ("got " ++ pyStr loc))
      (fun _ _ => .ok "F")
      (.obj [("method", .str "tools/call"), ("id", .num 4),
             ("params", .obj [("name", .str "get_weather")])]) =
      .ok (some (okEnv (.num 4) (contentResult "got "))) ∧
    handle_request simpleServer0 (fun loc => .ok ("got " ++ pyStr loc))
      (.obj [("method", .str "tools/call"), ("id", .num 4),
             ("params", .obj [("name", .str "get_weather"),
                              ("arguments", .obj [("units", .str "metric")])])]) =
      .ok (some (okEnv (.num 4) (contentResult "got "))) := by
  constructor
  · have h := (C10_default_arguments (fun loc => .ok ("got " ++ pyStr loc))
      (fun _ _ => .ok "F") simpleServer0
      [("method", .str "tools/call"), ("id", .num 4),
       ("params", .obj [("name", .str "get_weather")])]
      [("name", .str "get_weather")] (.num 4)
      rfl rfl rfl rfl (fun hc => JVal.noConfusion hc)).1 rfl
    exact h.1
  · have h := (C10_default_arguments (fun loc => .ok ("got " ++ pyStr loc))
      (fun _ _ => .ok "F") simpleServer0
      [("method", .str "tools/call"), ("id", .num 4),
       ("params", .obj [("name", .str "get_weather"),
                        ("arguments", .obj [("units", .str "metric")])])]
      [("name", .str "get_weather"),
       ("arguments", .obj [("units", .str "metric")])] (.num 4)
      rfl rfl rfl rfl (fun hc => JVal.noConfusion hc)).2
      [("units", .str "metric")] rfl rfl
    exact h.2

/-- C1 counterexample: a request that lacks an `id` field entirely, with
method `initialize`, is answered by both engines — the minimal engine
responds with a fabricated `id: null` and the simple engine with a
fabricated `id: 1` — instead of yielding no response at all. -/
theorem C1_counterexample :
    process_request (fun _ => .ok "W") (fun _ _ => .ok "F")
      (.obj [("method", .str "initialize")]) =
      .ok (some (okEnv .null minimalInitResult)) ∧
    handle_request simpleServer0 (fun _ => .ok "W")
      (.obj [("method", .str "initialize")]) =
      .ok (some (okEnv (.num 1) (simpleInitResult "simple-weather-server"))) :=
  ⟨rfl, rfl⟩

/-- C1 as amended: a request lacking `id` yields no response only when
the method is `notifications/initialized`; a request lacking `id` with
method `initialize` or `tools/list` is still answered, the minimal
engine fabricating `id: null` and the simple engine fabricating
`id: 1`. -/
theorem C1_missing_id_responses (gw : JVal → Except String String)
    (gwf : JVal → JVal → Except String String) (srv : SimpleServer)
    (kvs : List (String × JVal)) (hid : lookupKey kvs "id" = none) :
    (lookupKey kvs "method" = some (.str "notifications/initialized") →
      process_request gw gwf (.obj kvs) = .ok none ∧
      handle_request srv gw (.obj kvs) = .ok none ∧
      handle_message gw gwf (.ok (.obj kvs)) = .ok none) ∧
    (lookupKey kvs "method" = some (.str "initialize") →
      process_request gw gwf (.obj kvs) =
        .ok (some (okEnv .null minimalInitResult)) ∧
      handle_request srv gw (.obj kvs) =
        .ok (some (okEnv (.num 1) (simpleInitResult srv.name)))) ∧
    (lookupKey kvs "method" = some (.str "tools/list") →
      process_request gw gwf (.obj kvs) =
        .ok (some (okEnv .null (.obj [("tools", .arr minimalTools)]))) ∧
      handle_request srv gw (.obj kvs) =
        .ok (some (okEnv (.num 1) (.obj [("tools", .arr srv.tools)])))) := by
  refine ⟨fun hm => ?_, fun hm => ?_, fun hm => ?_⟩
  · have hpr : process_request gw gwf (.obj kvs) = .ok none := by
      simp only [process_request]
      rw [hm, hid]
      rfl
    refine ⟨hpr, ?_, ?_⟩
    · simp only [handle_request, simpleRid]
      rw [hm, hid]
      rfl
    · simp only [handle_message, hpr, truthyFilter]
  · constructor
    · simp only [process_request]
      rw [hm, hid]
      rfl
    · simp only [handle_request, simpleRid]
      rw [hm, hid]
      rfl
  · constructor
    · simp only [process_request]
      rw [hm, hid]
      rfl
    · simp only [handle_request, simpleRid]
      rw [hm, hid]
      rfl

/-- C1 amended witness at concrete id-less requests for each of the
three methods. -/
theorem C1_missing_id_responses_witness :
    handle_message (fun _ => .ok "W") (fun _ _ => .ok "F")
      (.ok (.obj [("method", .str "notifications/initialized")])) = .ok none ∧
    process_request (fun _ => .ok "W") (fun _ _ => .ok "F")
      (.obj [("method", .str "tools/list")]) =
      .ok (some (okEnv .null (.obj [("tools", .arr minimalTools)]))) ∧
    handle_request simpleServer0 (fun _ => .ok "W")
      (.obj [("method", .str "tools/list")]) =
      .ok (some (okEnv (.num 1) (.obj [("tools", .arr simpleServer0.tools)]))) := by
  have h1 := (C1_missing_id_responses (fun _ => .ok "W") (fun _ _ => .ok "F")
    simpleServer0 [("method", .str "notifications/initialized")] rfl).1 rfl
  have h2 := (C1_missing_id_responses (fun _ => .ok "W") (fun _ _ => .ok "F")
    simpleServer0 [("method", .str "tools/list")] rfl).2.2 rfl
  exact ⟨h1.2.2, h2.1, h2.2⟩

/-- C2 counterexample: a request carrying `id: null` (for `tools/list`)
is answered by the simple engine with an invented `id: 1`, so the
response id does not equal the request id. -/
theorem C2_counterexample :
    handle_request simpleServer0 (fun _ => .ok "W")
      (.obj [("method", .str "tools/list"), ("id", .null)]) =
      .ok (some (okEnv (.num 1) (.obj [("tools", .arr simpleServer0.tools)]))) ∧
    field (okEnv (.num 1) (.obj [("tools", .arr simpleServer0.tools)])) "id" =
      some (.num 1) ∧
    (JVal.num 1) ≠ JVal.null :=
  ⟨rfl, rfl, fun hc => JVal.noConfusion hc⟩

/-- C2 as amended: the minimal engine carries the request id through
unmodified into every response it produces (with a missing id reported
as null, and an unparseable message answered with id null); the simple
engine replaces a missing or null id with 1, and otherwise carries the
id through unmodified. -/
theorem C2_id_passthrough (gw : JVal → Except String String)
    (gwf : JVal → JVal → Except String String) (srv : SimpleServer)
    (kvs : List (String × JVal)) :
    (∀ resp, process_request gw gwf (.obj kvs) = .ok (some resp) →
      field resp "id" = some ((lookupKey kvs "id").getD .null)) ∧
    (∀ d, handle_message gw gwf (.error d) =
      .ok (some (errEnv .null (-32700) "Parse error"))) ∧
    (∀ v resp, lookupKey kvs "id" = some v → v ≠ .null →
      handle_request srv gw (.obj kvs) = .ok (some resp) →
      field resp "id" = some v) ∧
    (∀ resp, handle_request srv gw (.obj kvs) = .ok (some resp) →
      field resp "id" = some (simpleRid kvs)) := by
  refine ⟨?_, fun d => rfl, ?_, ?_⟩
  · intro resp h
    simp only [process_request] at h
    exact minimal_dispatch_id gw gwf _ _ _ resp h
  · intro v resp hid hv h
    simp only [handle_request] at h
    have hfield := simple_dispatch_id srv gw _ _ _ resp h
    rwa [simpleRid_of_ne_null kvs v hid hv] at hfield
  · intro resp h
    simp only [handle_request] at h
    exact simple_dispatch_id srv gw _ _ _ resp h

/-- C2 amended witness at a concrete request with id 7. -/
theorem C2_id_passthrough_witness :
    field (okEnv (.num 7) (.obj [("tools", .arr minimalTools)])) "id" =
      some (.num 7) ∧
    field (okEnv (.num 7) (.obj [("tools", .arr simpleServer0.tools)])) "id" =
      some (.num 7) := by
  have h := C2_id_passthrough (fun _ => .ok "W") (fun _ _ => .ok "F")
    simpleServer0 [("method", .str "tools/list"), ("id", .num 7)]
  exact ⟨h.1 _ rfl, h.2.2.1 (.num 7) _ rfl (fun hc => JVal.noConfusion hc) rfl⟩

/-- C3: the minimal engine's handle function raises on a line of valid
JSON that is not an object (here the array `[1, 2, 3]`): the dispatcher
raises `AttributeError`, and the `except` block itself re-raises on
`data.get("id")`; the transport loop then prints one best-effort
`Server error` envelope and terminates, dropping the valid request on
the following line — a single malformed message kills the connection. -/
theorem C3_nonobject_json_crashes :
    handle_message (fun _ => .ok "W") (fun _ _ => .ok "F")
      (.ok (.arr [.num 1, .num 2, .num 3])) =
      .error (.attributeError "list" "get") ∧
    minimal_loop (fun _ => .ok "W") (fun _ _ => .ok "F")
      (fun s => if s = "[1, 2, 3]" then .ok (.arr [.num 1, .num 2, .num 3])
                else .ok (.obj [("method", .str "tools/list"), ("id", .num 9)]))
      ["[1, 2, 3]", "TRAILING-VALID-REQUEST"] =
      [errEnv .null (-32603)
        ("Server error: " ++ pyErrStr (.attributeError "list" "get"))] :=
  ⟨rfl, rfl⟩

/-- C4 counterexample: for a non-JSON line the simple transport loop
emits code -32700 with id null, but its message is
`Parse error: <decoder detail>`, not exactly `Parse error`. -/
theorem C4_counterexample :
    simple_loop simpleServer0 (fun _ => .ok "W")
      (fun _ => .error "Expecting value: line 1 column 1 (char 0)")
      ["not-json-at-all"] =
      [errEnv .null (-32700)
        "Parse error: Expecting value: line 1 column 1 (char 0)"] ∧
    "Parse error: Expecting value: line 1 column 1 (char 0)" ≠ "Parse error" :=
  ⟨rfl, by decide⟩

/-- C4 as amended: a non-empty input line whose stripped text fails to
parse as JSON yields exactly one error envelope with code -32700 and id
null from either transport loop, and processing continues with the
remaining lines; the minimal loop's message is exactly `Parse error`,
while the simple loop's message is `Parse error: ` followed by the
decoder detail. -/
theorem C4_parse_error_envelopes (gw : JVal → Except String String)
    (gwf : JVal → JVal → Except String String) (srv : SimpleServer)
    (parse : String → Except String JVal) (line d : String)
    (rest : List String) (hline : line ≠ "") (htrim : pyStrip line ≠ "")
    (hparse : parse (pyStrip line) = .error d) :
    minimal_loop gw gwf parse (line :: rest) =
      errEnv .null (-32700) "Parse error" :: minimal_loop gw gwf parse rest ∧
    simple_loop srv gw parse (line :: rest) =
      errEnv .null (-32700) ("Parse error: " ++ d) ::
        simple_loop srv gw parse rest := by
  constructor
  · simp [minimal_loop, hline, hparse, handle_message]
  · simp [simple_loop, hline, htrim, hparse]

/-- C4 amended witness at the concrete line `not-json-at-all`. -/
theorem C4_parse_error_envelopes_witness :
    minimal_loop (fun _ => .ok "W") (fun _ _ => .ok "F")
      (fun _ => .error "Expecting value: line 1 column 1 (char 0)")
      ["not-json-at-all"] = [errEnv .null (-32700) "Parse error"] ∧
    simple_loop simpleServer0 (fun _ => .ok "W")
      (fun _ => .error "boom") ["not-json-at-all"] =
      [errEnv .null (-32700) "Parse error: boom"] := by
  constructor
  · exact (C4_parse_error_envelopes (fun _ => .ok "W") (fun _ _ => .ok "F")
      simpleServer0 (fun _ => .error "Expecting value: line 1 column 1 (char 0)")
      "not-json-at-all" "Expecting value: line 1 column 1 (char 0)" []
      (by decide) (by decide) rfl).1
  · exact (C4_parse_error_envelopes (fun _ => .ok "W") (fun _ _ => .ok "F")
      simpleServer0 (fun _ => .error "boom") "not-json-at-all" "boom" []
      (by decide) (by decide) rfl).2

/-- C5 counterexample: with the minimal server's own `get_weather`
collaborator (no API key configured), a `tools/call` of the known tool
`get_weather` whose fetch fails with the missing-credential sentinel is
answered with a success envelope whose single content item carries the
error text; the envelope has no `error` member at all, hence no -32603
code. -/
theorem C5_counterexample :
    process_request
      (fun loc => .ok (get_weather none (fun _ => .report "unreachable") loc))
      (fun _ _ => .ok "F")
      (.obj [("method", .str "tools/call"), ("id", .num 3),
             ("params", .obj [("name", .str "get_weather"),
                              ("arguments", .obj [("location", .str "London")])])]) =
      .ok (some (okEnv (.num 3) (contentResult
        "❌ Error: OPENWEATHER_API_KEY environment variable not set"))) ∧
    field (okEnv (.num 3) (contentResult
      "❌ Error: OPENWEATHER_API_KEY environment variable not set")) "error" =
      none :=
  ⟨rfl, rfl⟩

/-- C5 as amended: a fault actually raised by the collaborator is
converted by both engines into a -32603 error envelope carrying the
detail in `message`; but the concrete fetch functions never raise — the
enumerated failures (missing credential, empty location, location not
found, upstream HTTP error) are returned as sentinel strings, and any
returned string is wrapped unchanged in a success envelope whose content
carries the error text (`weather_server.call_tool` likewise returns
every failure as text content, never as a protocol error object). -/
theorem C5_failure_mapping (gw : JVal → Except String String)
    (gwf : JVal → JVal → Except String String) (srv : SimpleServer)
    (kvs pkvs akvs : List (String × JVal)) (v L : JVal)
    (hm : lookupKey kvs "method" = some (.str "tools/call"))
    (hp : lookupKey kvs "params" = some (.obj pkvs))
    (hn : lookupKey pkvs "name" = some (.str "get_weather"))
    (ha : lookupKey pkvs "arguments" = some (.obj akvs))
    (hl : lookupKey akvs "location" = some L)
    (hid : lookupKey kvs "id" = some v) (hv : v ≠ .null) :
    (∀ e, gw L = .error e →
      process_request gw gwf (.obj kvs) =
        .ok (some (errEnv v (-32603) ("Weather API error: " ++ e))) ∧
      handle_request srv gw (.obj kvs) =
        .ok (some (errEnv v (-32603) ("Tool execution error: " ++ e)))) ∧
    (∀ s, gw L = .ok s →
      process_request gw gwf (.obj kvs) =
        .ok (some (okEnv v (contentResult s))) ∧
      handle_request srv gw (.obj kvs) =
        .ok (some (okEnv v (contentResult s)))) ∧
    (∀ net loc, get_weather none net loc =
      "❌ Error: OPENWEATHER_API_KEY environment variable not set") ∧
    (∀ k net, k ≠ "" → get_weather (some k) net (.str "") =
      "❌ Error: No location provided") ∧
    (∀ k net loc, k ≠ "" → truthy loc = true → net loc = .notFound →
      get_weather (some k) net loc =
        "❌ Error: Location \x27" ++ pyStr loc ++ "\x27 not found") ∧
    (∀ k net loc c r, k ≠ "" → truthy loc = true → net loc = .httpError c r →
      get_weather (some k) net loc =
        "❌ Error: HTTP " ++ toString c ++ " - " ++ r) ∧
    (∀ fc ff args, call_tool none fc ff "get_current_weather" args =
      [textContent ("Error: OpenWeatherMap API key not configured. " ++
        "Please set OPENWEATHER_API_KEY environment variable.")]) := by
  refine ⟨?_, ?_, fun net loc => rfl, ?_, ?_, ?_, fun fc ff args => rfl⟩
  · intro e he
    constructor
    · simp only [process_request]
      rw [hm, hp, hid]
      simp [minimal_dispatch, JVal.beq, JVal.get, JVal.getD, hn, ha, hl,
        lookupKey, he]
    · simp only [handle_request]
      rw [hm, hp, simpleRid_of_ne_null kvs v hid hv]
      simp [simple_dispatch, JVal.beq, JVal.get, JVal.getD, hn, ha, hl,
        lookupKey, he]
  · intro s hs
    constructor
    · simp only [process_request]
      rw [hm, hp, hid]
      simp [minimal_dispatch, JVal.beq, JVal.get, JVal.getD, hn, ha, hl,
        lookupKey, hs]
    · simp only [handle_request]
      rw [hm, hp, simpleRid_of_ne_null kvs v hid hv]
      simp [simple_dispatch, JVal.beq, JVal.get, JVal.getD, hn, ha, hl,
        lookupKey, hs]
  · intro k net hk
    simp [get_weather, hk, truthy]
  · intro k net loc hk ht hnet
    simp [get_weather, hk, ht, hnet]
  · intro k net loc c r hk ht hnet
    simp [get_weather, hk, ht, hnet]

/-- C5 amended witness: a raising collaborator at a concrete request,
and the concrete not-found sentinel of `get_weather`. -/
theorem C5_failure_mapping_witness :
    process_request (fun _ => .error "boom") (fun _ _ => .ok "F")
      (.obj [("method", .str "tools/call"), ("id", .num 3),
             ("params", .obj [("name", .str "get_weather"),
                              ("arguments", .obj [("location", .str "London")])])]) =
      .ok (some (errEnv (.num 3) (-32603) "Weather API error: boom")) ∧
    get_weather (some "k") (fun _ => .notFound) (.str "Atlantis") =
      "❌ Error: Location \x27Atlantis\x27 not found" := by
  constructor
  · exact ((C5_failure_mapping (fun _ => .error "boom") (fun _ _ => .ok "F")
      simpleServer0
      [("method", .str "tools/call"), ("id", .num 3),
       ("params", .obj [("name", .str "get_weather"),
                        ("arguments", .obj [("location", .str "London")])])]
      [("name", .str "get_weather"),
       ("arguments", .obj [("location", .str "London")])]
      [("location", .str "London")] (.num 3) (.str "London")
      rfl rfl rfl rfl rfl rfl (fun hc => JVal.noConfusion hc)).1 "boom" rfl).1
  · exact (C5_failure_mapping (fun _ => .ok "w") (fun _ _ => .ok "F")
      simpleServer0
      [("method", .str "tools/call"), ("id", .num 3),
       ("params", .obj [("name", .str "get_weather"),
                        ("arguments", .obj [("location", .str "London")])])]
      [("name", .str "get_weather"),
       ("arguments", .obj [("location", .str "London")])]
      [("location", .str "London")] (.num 3) (.str "London")
      rfl rfl rfl rfl rfl rfl (fun hc => JVal.noConfusion hc)).2.2.2.2.1
      "k" (fun _ => .notFound) (.str "Atlantis") (by decide) rfl rfl

/-- C8 counterexample: the minimal transport loop does not skip a line of
pure whitespace — it strips it, hands the empty string to the JSON
parser, and emits a -32700 `Parse error` envelope instead of staying
silent. -/
theorem C8_counterexample :
    minimal_loop (fun _ => .ok "W") (fun _ _ => .ok "F")
      (fun _ => .error "Expecting value: line 1 column 1 (char 0)")
      ["   "] = [errEnv .null (-32700) "Parse error"] := rfl

/-- C8 as amended: a non-empty line that is whitespace only is skipped by
the simple transport loop (no message dispatched, no envelope emitted),
but the minimal loop does not skip it: the stripped empty text fails to
parse as JSON and one -32700 `Parse error` envelope is emitted. -/
theorem C8_blank_line_handling (gw : JVal → Except String String)
    (gwf : JVal → JVal → Except String String) (srv : SimpleServer)
    (parse : String → Except String JVal) (line d : String)
    (rest : List String) (hline : line ≠ "") (htrim : pyStrip line = "")
    (hparse : parse "" = .error d) :
    simple_loop srv gw parse (line :: rest) = simple_loop srv gw parse rest ∧
    minimal_loop gw gwf parse (line :: rest) =
      errEnv .null (-32700) "Parse error" ::
        minimal_loop gw gwf parse rest := by
  constructor
  · simp [simple_loop, hline, htrim]
  · simp [minimal_loop, hline, htrim, hparse, handle_message]

/-- C8 amended witness at a concrete line of a space and a tab. -/
theorem C8_blank_line_handling_witness :
    simple_loop simpleServer0 (fun _ => .ok "W")
      (fun _ => .error "Expecting value") [" \t "] = [] ∧
    minimal_loop (fun _ => .ok "W") (fun _ _ => .ok "F")
      (fun _ => .error "Expecting value") [" \t "] =
      [errEnv .null (-32700) "Parse error"] := by
  have h := C8_blank_line_handling (fun _ => .ok "W") (fun _ _ => .ok "F")
    simpleServer0 (fun _ => .error "Expecting value") " \t " "Expecting value"
    [] (by decide) rfl rfl
  exact ⟨h.1, h.2⟩

end MCPWeather
